import Mathlib

/-!
Shallow embedding of src/demo-app/assets/create_icons.py.

The script builds two solid-color RGB canvases with Image.new, saves each
one to a fixed file name, and prints a confirmation line.  A canvas is
modelled as its mode string, its dimensions and its pixel map.  The run of
the script is modelled as a list of steps (canvas allocation, file save,
line print) executed against a world consisting of a file store and a
standard-output buffer.  An oracle decides which steps succeed, and
execution stops at the first failing step, which captures the unhandled
propagation of allocation and I/O errors.  The PNG encoder is an arbitrary
parameter enc, so every theorem below holds for any deterministic encoding
of a canvas to bytes.
-/

namespace CreateIcons

/-- An 8-bit-per-channel RGB color triple. -/
structure RGB where
  r : Nat
  g : Nat
  b : Nat
deriving DecidableEq

/-- An in-memory canvas: mode string, dimensions, and pixel map. -/
structure Canvas where
  mode : String
  width : Nat
  height : Nat
  pixel : Nat → Nat → RGB

/-- Model of PIL Image.new: a canvas of the given size in which every pixel
holds the given fill color. -/
def Image.new (mode : String) (size : Nat × Nat) (color : RGB) : Canvas :=
  { mode := mode, width := size.1, height := size.2, pixel := fun _ _ => color }

/-- Line 4 of the source: the 1024 by 1024 icon canvas with fill (28, 28, 30). -/
def img : Canvas := Image.new "RGB" (1024, 1024) ⟨28, 28, 30⟩

/-- Line 8 of the source: the 1284 by 2778 splash canvas with fill (28, 28, 30). -/
def splash : Canvas := Image.new "RGB" (1284, 2778) ⟨28, 28, 30⟩

/-- One observable step of the script run. -/
inductive Step where
  | alloc : Nat → Nat → RGB → Step
  | save : String → Canvas → Step
  | printLine : String → Step

/-- The world a run acts on: the file store, mapping a path to the bytes
stored there when the path exists, and the standard output, modelled as the
list of strings printed so far. -/
structure World where
  files : String → Option (List Nat)
  stdout : List String

/-- Effect of a single successful step on the world.  An allocation only
builds an in-memory value; a save stores the encoded bytes at the path,
replacing any previous content; a print appends the text plus a newline to
standard output. -/
def runStep (enc : Canvas → List Nat) (w : World) : Step → World
  | Step.alloc _ _ _ => w
  | Step.save p c => { w with files := fun q => if q = p then some (enc c) else w.files q }
  | Step.printLine s => { w with stdout := w.stdout ++ [s ++ "\n"] }

/-- Run a list of steps.  The oracle ok tells which steps succeed; the run
stops at the first failing step, returning the world reached so far together
with a flag telling whether every step succeeded. -/
def execSteps (enc : Canvas → List Nat) (ok : Step → Bool) : List Step → World → World × Bool
  | [], w => (w, true)
  | s :: rest, w => if ok s then execSteps enc ok rest (runStep enc w s) else (w, false)

/-- The straight-line body of create_icons.py as a step list: allocate the
icon canvas, save it to icon.png, allocate the splash canvas, save it to
splash-icon.png, print the confirmation. -/
def script : List Step :=
  [Step.alloc 1024 1024 ⟨28, 28, 30⟩,
   Step.save "icon.png" img,
   Step.alloc 1284 2778 ⟨28, 28, 30⟩,
   Step.save "splash-icon.png" splash,
   Step.printLine "Icons created!"]

/-- The paths saved by a step list, in execution order. -/
def savedPaths : List Step → List String
  | [] => []
  | Step.save p _ :: rest => p :: savedPaths rest
  | Step.alloc _ _ _ :: rest => savedPaths rest
  | Step.printLine _ :: rest => savedPaths rest

/-- The world produced by a run of the script in which every step succeeds. -/
def finalWorld (enc : Canvas → List Nat) (w : World) : World :=
  { files := fun q =>
      if q = "splash-icon.png" then some (enc splash)
      else if q = "icon.png" then some (enc img)
      else w.files q,
    stdout := w.stdout ++ ["Icons created!" ++ "\n"] }

/-- Helper: a successful run of the script reaches exactly finalWorld. -/
theorem exec_success_shape (enc : Canvas → List Nat) (ok : Step → Bool) (w : World)
    (h : (execSteps enc ok script w).2 = true) :
    (execSteps enc ok script w).1 = finalWorld enc w := by
  simp only [script, execSteps] at h ⊢
  split_ifs at h ⊢ <;> first | rfl | simp_all

/-- Claim C1: every pixel of the icon canvas and every pixel of the splash
canvas has the 8-bit RGB color (28, 28, 30); in particular the two canvases
are filled with the identical color. -/
theorem all_pixels_fill (x y u v : Nat) (hx : x < img.width) (hy : y < img.height)
    (hu : u < splash.width) (hv : v < splash.height) :
    img.pixel x y = ⟨28, 28, 30⟩ ∧ splash.pixel u v = ⟨28, 28, 30⟩ ∧
    img.pixel x y = splash.pixel u v :=
  ⟨rfl, rfl, rfl⟩

/-- Witness for C1 at pixel (0, 0) of each canvas. -/
theorem all_pixels_fill_witness :
    0 < img.width ∧ 0 < img.height ∧ 0 < splash.width ∧ 0 < splash.height ∧
    (img.pixel 0 0 = ⟨28, 28, 30⟩ ∧ splash.pixel 0 0 = ⟨28, 28, 30⟩ ∧
     img.pixel 0 0 = splash.pixel 0 0) :=
  ⟨by decide, by decide, by decide, by decide,
   all_pixels_fill 0 0 0 0 (by decide) (by decide) (by decide) (by decide)⟩

/-- Claim C2: the canvas the script saves to icon.png is 1024 wide and 1024
high. -/
theorem icon_dimensions :
    img.width = 1024 ∧ img.height = 1024 ∧ Step.save "icon.png" img ∈ script := by
  refine ⟨rfl, rfl, ?_⟩
  simp [script]

/-- Claim C3: the canvas the script saves to splash-icon.png is 1284 wide
and 2778 high. -/
theorem splash_dimensions :
    splash.width = 1284 ∧ splash.height = 2778 ∧
    Step.save "splash-icon.png" splash ∈ script := by
  refine ⟨rfl, rfl, ?_⟩
  simp [script]

/-- Claim C4: on every successful run started with empty standard output,
the final standard output is exactly one line, the confirmation text
followed by a newline; moreover after the first four steps (both
allocations and both saves) the output is still empty while both files are
already written, so the line is emitted only after both writes completed. -/
theorem stdout_single_line_after_writes (enc : Canvas → List Nat) (ok : Step → Bool)
    (w : World) (hw : w.stdout = [])
    (h : (execSteps enc ok script w).2 = true) :
    (execSteps enc ok script w).1.stdout = ["Icons created!" ++ "\n"] ∧
    (execSteps enc ok (List.take 4 script) w).1.stdout = [] ∧
    (execSteps enc ok (List.take 4 script) w).1.files "icon.png" = some (enc img) ∧
    (execSteps enc ok (List.take 4 script) w).1.files "splash-icon.png" = some (enc splash) := by
  simp only [script, List.take, execSteps] at h ⊢
  split_ifs at h ⊢ <;> simp_all [runStep]

/-- Witness for C4: a run with an all-true oracle from the empty world. -/
theorem stdout_single_line_after_writes_witness :
    (execSteps (fun _ => []) (fun _ => true) script ⟨fun _ => none, []⟩).1.stdout =
      ["Icons created!" ++ "\n"] ∧
    (execSteps (fun _ => []) (fun _ => true) (List.take 4 script) ⟨fun _ => none, []⟩).1.stdout = [] ∧
    (execSteps (fun _ => []) (fun _ => true) (List.take 4 script)
        ⟨fun _ => none, []⟩).1.files "icon.png" = some ((fun _ => []) img) ∧
    (execSteps (fun _ => []) (fun _ => true) (List.take 4 script)
        ⟨fun _ => none, []⟩).1.files "splash-icon.png" = some ((fun _ => []) splash) :=
  stdout_single_line_after_writes (fun _ => []) (fun _ => true) ⟨fun _ => none, []⟩ rfl rfl

/-- Claim C5: if any canvas allocation or any file save step fails, the run
aborts before the confirmation print: standard output is unchanged and the
run reports failure. -/
theorem failure_no_confirmation (enc : Canvas → List Nat) (ok : Step → Bool) (w : World)
    (h : ok (Step.alloc 1024 1024 ⟨28, 28, 30⟩) = false ∨
         ok (Step.save "icon.png" img) = false ∨
         ok (Step.alloc 1284 2778 ⟨28, 28, 30⟩) = false ∨
         ok (Step.save "splash-icon.png" splash) = false) :
    (execSteps enc ok script w).1.stdout = w.stdout ∧
    (execSteps enc ok script w).2 = false := by
  simp only [script, execSteps]
  rcases h with h | h | h | h <;> split_ifs <;> simp_all [runStep]

/-- Witness for C5: every step fails under the all-false oracle. -/
theorem failure_no_confirmation_witness :
    (execSteps (fun _ => []) (fun _ => false) script ⟨fun _ => none, []⟩).1.stdout = [] ∧
    (execSteps (fun _ => []) (fun _ => false) script ⟨fun _ => none, []⟩).2 = false :=
  failure_no_confirmation (fun _ => []) (fun _ => false) ⟨fun _ => none, []⟩ (Or.inl rfl)

/-- Claim C6: determinism and idempotence: any two successful runs with the
same encoder, started from any two prior worlds, store identical bytes at
icon.png and identical bytes at splash-icon.png, each equal to the encoding
of the corresponding fixed canvas; no output byte depends on the prior
world, on time, or on any input. -/
theorem deterministic_idempotent (enc : Canvas → List Nat) (ok1 ok2 : Step → Bool)
    (w1 w2 : World)
    (h1 : (execSteps enc ok1 script w1).2 = true)
    (h2 : (execSteps enc ok2 script w2).2 = true) :
    (execSteps enc ok1 script w1).1.files "icon.png" =
      (execSteps enc ok2 script w2).1.files "icon.png" ∧
    (execSteps enc ok1 script w1).1.files "splash-icon.png" =
      (execSteps enc ok2 script w2).1.files "splash-icon.png" ∧
    (execSteps enc ok1 script w1).1.files "icon.png" = some (enc img) ∧
    (execSteps enc ok1 script w1).1.files "splash-icon.png" = some (enc splash) := by
  rw [exec_success_shape enc ok1 w1 h1, exec_success_shape enc ok2 w2 h2]
  refine ⟨?_, ?_, ?_, ?_⟩ <;> simp [finalWorld]

/-- Witness for C6: two successful runs from different prior worlds. -/
theorem deterministic_idempotent_witness :
    (execSteps (fun _ => []) (fun _ => true) script ⟨fun _ => none, []⟩).1.files "icon.png" =
      (execSteps (fun _ => []) (fun _ => true) script
        ⟨fun _ => some [7], ["old"]⟩).1.files "icon.png" ∧
    (execSteps (fun _ => []) (fun _ => true) script ⟨fun _ => none, []⟩).1.files "splash-icon.png" =
      (execSteps (fun _ => []) (fun _ => true) script
        ⟨fun _ => some [7], ["old"]⟩).1.files "splash-icon.png" ∧
    (execSteps (fun _ => []) (fun _ => true) script ⟨fun _ => none, []⟩).1.files "icon.png" =
      some ((fun _ => []) img) ∧
    (execSteps (fun _ => []) (fun _ => true) script ⟨fun _ => none, []⟩).1.files "splash-icon.png" =
      some ((fun _ => []) splash) :=
  deterministic_idempotent (fun _ => []) (fun _ => true) (fun _ => true)
    ⟨fun _ => none, []⟩ ⟨fun _ => some [7], ["old"]⟩ rfl rfl

/-- Claim C7: a successful run overwrites whatever was previously stored at
the two target paths: afterwards each path holds exactly the newly generated
bytes, whatever the prior world contained at those paths. -/
theorem unconditional_overwrite (enc : Canvas → List Nat) (ok : Step → Bool) (w : World)
    (h : (execSteps enc ok script w).2 = true) :
    (execSteps enc ok script w).1.files "icon.png" = some (enc img) ∧
    (execSteps enc ok script w).1.files "splash-icon.png" = some (enc splash) := by
  rw [exec_success_shape enc ok w h]
  exact ⟨by simp [finalWorld], by simp [finalWorld]⟩

/-- Witness for C7: a run over a world in which both paths already hold
other bytes. -/
theorem unconditional_overwrite_witness :
    (execSteps (fun _ => [1]) (fun _ => true) script
      ⟨fun _ => some [9, 9], []⟩).1.files "icon.png" = some ((fun _ => [1]) img) ∧
    (execSteps (fun _ => [1]) (fun _ => true) script
      ⟨fun _ => some [9, 9], []⟩).1.files "splash-icon.png" = some ((fun _ => [1]) splash) :=
  unconditional_overwrite (fun _ => [1]) (fun _ => true) ⟨fun _ => some [9, 9], []⟩ rfl

/-- Claim C8: the script saves exactly two files and in a fixed order:
icon.png strictly before splash-icon.png. -/
theorem save_order : savedPaths script = ["icon.png", "splash-icon.png"] := rfl

/-- Claim C9: frame condition: a successful run leaves every file other
than the two target paths exactly as it was, and its only output effect is
appending the one confirmation line to standard output. -/
theorem frame_condition (enc : Canvas → List Nat) (ok : Step → Bool) (w : World)
    (p : String) (hp1 : p ≠ "icon.png") (hp2 : p ≠ "splash-icon.png")
    (h : (execSteps enc ok script w).2 = true) :
    (execSteps enc ok script w).1.files p = w.files p ∧
    (execSteps enc ok script w).1.stdout = w.stdout ++ ["Icons created!" ++ "\n"] := by
  rw [exec_success_shape enc ok w h]
  exact ⟨by simp [finalWorld, hp1, hp2], rfl⟩

/-- Witness for C9 at an unrelated path. -/
theorem frame_condition_witness :
    (execSteps (fun _ => []) (fun _ => true) script
      ⟨fun _ => some [3], []⟩).1.files "other.txt" =
      ((⟨fun _ => some [3], []⟩ : World).files "other.txt") ∧
    (execSteps (fun _ => []) (fun _ => true) script ⟨fun _ => some [3], []⟩).1.stdout =
      [] ++ ["Icons created!" ++ "\n"] :=
  frame_condition (fun _ => []) (fun _ => true) ⟨fun _ => some [3], []⟩ "other.txt"
    (by decide) (by decide) rfl

/-- Claim C10: if the save of icon.png fails, the run stops at once: the
file store at the splash path and the standard output are unchanged, and
the run reports failure, so splash-icon.png is never written and nothing is
printed. -/
theorem icon_failure_halts (enc : Canvas → List Nat) (ok : Step → Bool) (w : World)
    (h : ok (Step.save "icon.png" img) = false) :
    (execSteps enc ok script w).1.files "splash-icon.png" = w.files "splash-icon.png" ∧
    (execSteps enc ok script w).1.stdout = w.stdout ∧
    (execSteps enc ok script w).2 = false := by
  simp only [script, execSteps]
  split_ifs <;> simp_all [runStep]

/-- Witness for C10 under the all-false oracle. -/
theorem icon_failure_halts_witness :
    (execSteps (fun _ => []) (fun _ => false) script
      ⟨fun _ => none, []⟩).1.files "splash-icon.png" =
      ((⟨fun _ => none, []⟩ : World).files "splash-icon.png") ∧
    (execSteps (fun _ => []) (fun _ => false) script ⟨fun _ => none, []⟩).1.stdout = [] ∧
    (execSteps (fun _ => []) (fun _ => false) script ⟨fun _ => none, []⟩).2 = false :=
  icon_failure_halts (fun _ => []) (fun _ => false) ⟨fun _ => none, []⟩ rfl

end CreateIcons
